import Mathlib

/-!
Shallow embedding of the GtkRange interaction core (src/gtk/gtkrange.c).
`gdouble` values are modelled as `ℚ`, `gint` values as `ℤ`.
-/

namespace GtkRange

/-- GtkOrientation. -/
inductive Orientation where
  | horizontal
  | vertical
deriving DecidableEq, Repr

/-- GtkTextDirection as returned by gtk_widget_get_direction (effective: LTR or RTL). -/
inductive TextDir where
  | ltr
  | rtl
deriving DecidableEq, Repr

/-- The child widget a grab or mouse location can refer to. -/
inductive Loc where
  | slider
  | trough
deriving DecidableEq, Repr

/-- GtkScrollType, restricted to the constructors gtkrange.c uses. -/
inductive ScrollType where
  | none
  | jump
  | stepBackward
  | stepForward
  | pageBackward
  | pageForward
  | stepUp
  | stepDown
  | stepLeft
  | stepRight
  | pageUp
  | pageDown
  | pageLeft
  | pageRight
  | scrollStart
  | scrollEnd
deriving DecidableEq, Repr

/-- State of one GtkRange widget: the GtkRangePrivate fields the interaction
core reads and writes, plus the adjustment fields and the trough/slider
geometry (read from allocations in the C code, modelled as state here). -/
structure RangeState where
  orientation : Orientation
  inverted : Bool
  flippable : Bool
  textDir : TextDir
  adjValue : ℚ
  adjLower : ℚ
  adjUpper : ℚ
  adjStepIncrement : ℚ
  adjPageIncrement : ℚ
  adjPageSize : ℚ
  restrictToFillLevel : Bool
  fillLevel : ℚ
  roundDigits : ℤ
  marks : List ℚ
  grabLocation : Option Loc
  zoom : Bool
  inDrag : Bool
  dragGestureActive : Bool
  autoscrollMode : ScrollType
  autoscrollId : Option Nat
  timer : Option ScrollType
  slideInitialSliderPosition : ℤ
  slideInitialCoordinateDelta : ℤ
  mouseX : ℤ
  mouseY : ℤ
  widgetWidth : ℤ
  widgetHeight : ℤ
  troughStart : ℤ
  troughLength : ℤ
  sliderLength : ℤ
deriving DecidableEq, Repr

/-- The C `CLAMP(x, low, high)` macro, literally:
`(((x) > (high)) ? (high) : (((x) < (low)) ? (low) : (x)))`. -/
def cClamp (x low high : ℚ) : ℚ :=
  if x > high then high else if x < low then low else x

/-- `should_invert` (gtkrange.c): for a horizontal range the three listed
disjuncts over inverted/flippable/text direction, for a vertical range just
the inverted flag. -/
def shouldInvertCore (orientation : Orientation) (inverted flippable : Bool)
    (dir : TextDir) : Bool :=
  if orientation = Orientation.horizontal then
    (inverted && !flippable) ||
    (inverted && flippable && decide (dir = TextDir.ltr)) ||
    (!inverted && flippable && decide (dir = TextDir.rtl))
  else
    inverted

/-- `should_invert` applied to a range state. -/
def RangeState.shouldInvert (st : RangeState) : Bool :=
  shouldInvertCore st.orientation st.inverted st.flippable st.textDir

/-- `coord_to_value` (gtkrange.c): fraction of the travel range covered by
`coord`, mirrored under effective inversion, mapped affinely onto
`[lower, upper - page_size]`. The trough/slider extents come from the state
(the C code reads them from the per-orientation allocations). -/
def coordToValue (st : RangeState) (coord : ℚ) : ℚ :=
  let frac0 : ℚ :=
    if st.troughLength = st.sliderLength then 1
    else max 0 (coord - (st.troughStart : ℚ)) /
      ((st.troughLength : ℚ) - (st.sliderLength : ℚ))
  let frac : ℚ := if st.shouldInvert then 1 - frac0 else frac0
  st.adjLower + frac * (st.adjUpper - st.adjLower - st.adjPageSize)

/-- The value `gtk_range_real_change_value` passes to the adjustment:
fill-level cap, then `CLAMP` into `[lower, upper - page_size]`, then
round-half-up to `round_digits` decimal digits when `round_digits >= 0`. -/
def realChangeValueValue (st : RangeState) (value : ℚ) : ℚ :=
  let v1 : ℚ :=
    if st.restrictToFillLevel then min value (max st.adjLower st.fillLevel)
    else value
  let v2 : ℚ := cClamp v1 st.adjLower (st.adjUpper - st.adjPageSize)
  if st.roundDigits ≥ 0 then
    let power : ℚ := (10 : ℚ) ^ st.roundDigits.toNat
    (⌊v2 * power + 1/2⌋ : ℚ) / power
  else v2

/-- Modelled from the spec: the external Adjustment Model (gtkadjustment.c is
not under src/) stores a set value clamped so that
`lower ≤ value ≤ upper - page_size` holds; `animate_to_value` is modelled as
the same immediate clamped assignment. -/
def adjustmentSetValue (st : RangeState) (v : ℚ) : RangeState :=
  { st with adjValue := max st.adjLower (min v (st.adjUpper - st.adjPageSize)) }

/-- Emission of the change-value signal with the default class handler
`gtk_range_real_change_value`: the processed candidate is committed to the
adjustment (set or animate, both modelled as the adjustment's clamped set).
The scroll type is passed through the signal but unused by the default
handler, exactly as in the C code. -/
def changeValue (st : RangeState) : ScrollType → ℚ → RangeState :=
  fun _ value => adjustmentSetValue st (realChangeValueValue st value)

end GtkRange

namespace GtkRangeSpec

open GtkRange

/-- Written from the spec's words (§4.2): `should_invert` as
`orientation==vertical ? inverted : the three listed combinations`. -/
def specShouldInvert (orientation : Orientation) (inverted flippable : Bool)
    (dir : TextDir) : Bool :=
  if orientation = Orientation.vertical then inverted
  else
    (inverted && !flippable) ||
    (inverted && flippable && decide (dir = TextDir.ltr)) ||
    (!inverted && flippable && decide (dir = TextDir.rtl))

/-- Written from the spec's words (§4.4): commit value = cap at
`max(lower, fill_level)` when restricted, clamp into
`[lower, upper - page_size]`, then round half-up to `round_digits` digits. -/
def specCommitValue (st : RangeState) (value : ℚ) : ℚ :=
  let capped : ℚ :=
    if st.restrictToFillLevel then min value (max st.adjLower st.fillLevel)
    else value
  let clamped : ℚ := max st.adjLower (min capped (st.adjUpper - st.adjPageSize))
  if st.roundDigits ≥ 0 then
    let power : ℚ := (10 : ℚ) ^ st.roundDigits.toNat
    (⌊clamped * power + 1/2⌋ : ℚ) / power
  else clamped

/-- Written from the spec's words (§4.1): `coord_to_value` as
`frac = max(0, coord - trough_start) / (trough_length - slider_length)`
(or 1 in the degenerate equal-length case), mirrored under effective
inversion, then `lower + frac * (upper - lower - page_size)`. -/
def specCoordToValue (st : RangeState) (coord : ℚ) : ℚ :=
  let frac0 : ℚ :=
    if st.troughLength = st.sliderLength then 1
    else max 0 (coord - (st.troughStart : ℚ)) /
      ((st.troughLength : ℚ) - (st.sliderLength : ℚ))
  let frac : ℚ := if st.shouldInvert then 1 - frac0 else frac0
  st.adjLower + frac * (st.adjUpper - st.adjLower - st.adjPageSize)

end GtkRangeSpec

namespace GtkRange

/-- A convenient base state for concrete instantiations. -/
def baseState : RangeState where
  orientation := Orientation.horizontal
  inverted := false
  flippable := false
  textDir := TextDir.ltr
  adjValue := 0
  adjLower := 0
  adjUpper := 10
  adjStepIncrement := 1
  adjPageIncrement := 2
  adjPageSize := 0
  restrictToFillLevel := false
  fillLevel := 100
  roundDigits := -1
  marks := []
  grabLocation := Option.none
  zoom := false
  inDrag := false
  dragGestureActive := false
  autoscrollMode := ScrollType.none
  autoscrollId := Option.none
  timer := Option.none
  slideInitialSliderPosition := 0
  slideInitialCoordinateDelta := 0
  mouseX := 0
  mouseY := 0
  widgetWidth := 100
  widgetHeight := 20
  troughStart := 0
  troughLength := 110
  sliderLength := 10

/-- `apply_marks` (gtkrange.c): replace `newval` with the first mark strictly
between `oldval` and `newval` (in either direction), if any. -/
def applyMarks (marks : List ℚ) (oldval newval : ℚ) : ℚ :=
  match marks with
  | [] => newval
  | mark :: rest =>
    if (oldval < mark ∧ mark < newval) ∨ (oldval > mark ∧ mark > newval) then mark
    else applyMarks rest oldval newval

/-- The value `step_forward` (gtkrange.c) emits to the change-value signal:
`value + step_increment` passed through `apply_marks`. -/
def stepForwardNewval (st : RangeState) : ℚ :=
  applyMarks st.marks st.adjValue (st.adjValue + st.adjStepIncrement)

/-- The value `step_back` (gtkrange.c) emits to the change-value signal. -/
def stepBackNewval (st : RangeState) : ℚ :=
  applyMarks st.marks st.adjValue (st.adjValue - st.adjStepIncrement)

/-- The value `page_forward` (gtkrange.c) emits to the change-value signal. -/
def pageForwardNewval (st : RangeState) : ℚ :=
  applyMarks st.marks st.adjValue (st.adjValue + st.adjPageIncrement)

/-- The value `page_back` (gtkrange.c) emits to the change-value signal. -/
def pageBackNewval (st : RangeState) : ℚ :=
  applyMarks st.marks st.adjValue (st.adjValue - st.adjPageIncrement)

/-- `step_forward` (gtkrange.c): emit change-value with the marked-through
step target. -/
def stepForward (st : RangeState) : RangeState :=
  changeValue st ScrollType.stepForward (stepForwardNewval st)

/-- `step_back` (gtkrange.c). -/
def stepBack (st : RangeState) : RangeState :=
  changeValue st ScrollType.stepBackward (stepBackNewval st)

/-- `page_forward` (gtkrange.c). -/
def pageForward (st : RangeState) : RangeState :=
  changeValue st ScrollType.pageForward (pageForwardNewval st)

/-- `page_back` (gtkrange.c). -/
def pageBack (st : RangeState) : RangeState :=
  changeValue st ScrollType.pageBackward (pageBackNewval st)

/-- `scroll_begin` (gtkrange.c): emit change-value with `lower`. -/
def scrollBegin (st : RangeState) : RangeState :=
  changeValue st ScrollType.scrollStart st.adjLower

/-- `scroll_end` (gtkrange.c): emit change-value with `upper - page_size`. -/
def scrollEnd (st : RangeState) : RangeState :=
  changeValue st ScrollType.scrollEnd (st.adjUpper - st.adjPageSize)

/-- The state `gtk_range_scroll` (gtkrange.c) leaves behind: the big switch
over scroll types, with left/up/right/down remapped through effective
inversion. `jump` and `none` do nothing. -/
def scrollNewState (st : RangeState) (scroll : ScrollType) : RangeState :=
  match scroll with
  | ScrollType.stepLeft => if st.shouldInvert then stepForward st else stepBack st
  | ScrollType.stepUp => if st.shouldInvert then stepForward st else stepBack st
  | ScrollType.stepRight => if st.shouldInvert then stepBack st else stepForward st
  | ScrollType.stepDown => if st.shouldInvert then stepBack st else stepForward st
  | ScrollType.stepBackward => stepBack st
  | ScrollType.stepForward => stepForward st
  | ScrollType.pageLeft => if st.shouldInvert then pageForward st else pageBack st
  | ScrollType.pageUp => if st.shouldInvert then pageForward st else pageBack st
  | ScrollType.pageRight => if st.shouldInvert then pageBack st else pageForward st
  | ScrollType.pageDown => if st.shouldInvert then pageBack st else pageForward st
  | ScrollType.pageBackward => pageBack st
  | ScrollType.pageForward => pageForward st
  | ScrollType.scrollStart => scrollBegin st
  | ScrollType.scrollEnd => scrollEnd st
  | ScrollType.jump => st
  | ScrollType.none => st

/-- `gtk_range_scroll` (gtkrange.c): runs the scroll action and returns
whether the adjustment's stored value differs from the value saved before. -/
def gtkRangeScroll (st : RangeState) (scroll : ScrollType) : RangeState × Bool :=
  (scrollNewState st scroll,
    decide ((scrollNewState st scroll).adjValue ≠ st.adjValue))

/-- `gtk_range_move_slider` (gtkrange.c): run `gtk_range_scroll`; the second
component records whether `gtk_widget_error_bell` fires, which happens exactly
when `gtk_range_scroll` returned FALSE. -/
def moveSlider (st : RangeState) (scroll : ScrollType) : RangeState × Bool :=
  ((gtkRangeScroll st scroll).1, !(gtkRangeScroll st scroll).2)

/-- The mark loop of `update_slider_position` (gtkrange.c): the first mark
within `3 * markDelta` of the current adjustment value and within
`MARK_SNAP_LENGTH = 12` times `markDelta` of the candidate replaces the
candidate; otherwise the candidate survives. -/
def snapLoop (marks : List ℚ) (adjValue markDelta newValue : ℚ) : ℚ :=
  match marks with
  | [] => newValue
  | m :: rest =>
    if |adjValue - m| < 3 * markDelta then
      if |newValue - m| < 12 * markDelta then m
      else snapLoop rest adjValue markDelta newValue
    else snapLoop rest adjValue markDelta newValue

/-- The emission of `update_slider_position` (gtkrange.c) as a function of the
synthetic slider coordinate `c` (the source computes `c` from the captured
drag state and zoom factor): candidate `coord_to_value(c)`, adjacent-pixel
delta `|coord_to_value(c+1) - coord_to_value(c)|`, mark snapping, then the
change-value signal with reason `GTK_SCROLL_JUMP`. -/
def updateSliderEmit (st : RangeState) (c : ℚ) : ScrollType × ℚ :=
  let newValue := coordToValue st c
  let nextValue := coordToValue st (c + 1)
  let markDelta := |nextValue - newValue|
  (ScrollType.jump, snapLoop st.marks st.adjValue markDelta newValue)

/-- The start/end-mode speed interpolation of `autoscroll_cb` (gtkrange.c):
`distance = CLAMP (distance - 20, 0, 200)`, `t = distance / 100`,
`step = (1 - t) * step + t * page`, where `dist` is the pointer's off-axis
distance `fabs(offset)`. -/
def autoscrollStepAtDistance (step page dist : ℚ) : ℚ :=
  let d := cClamp (dist - 20) 0 200
  let t := d / 100
  (1 - t) * step + t * page

/-- The per-tick increment of `autoscroll_cb` (gtkrange.c), as a function of
the autoscroll mode, the adjustment's step and page increments, and the
pointer's off-axis distance. The default branch is `g_assert_not_reached`
in the C code. -/
def autoscrollIncrement (mode : ScrollType) (step page dist : ℚ) : ℚ :=
  match mode with
  | ScrollType.stepForward => step / 20
  | ScrollType.pageForward => page / 20
  | ScrollType.stepBackward => -step / 20
  | ScrollType.pageBackward => -page / 20
  | ScrollType.scrollStart => -autoscrollStepAtDistance step page dist / 20
  | ScrollType.scrollEnd => autoscrollStepAtDistance step page dist / 20
  | _ => 0

/-- The mode `update_autoscroll_mode` (gtkrange.c) computes: only in zoom
mode, near edge (`pos < SCROLL_EDGE_SIZE = 15`) and far edge
(`pos > size - 15`) map to step scrolling, with the direction chosen by the
raw `inverted` flag. -/
def updateAutoscrollModeValue (st : RangeState) : ScrollType :=
  if st.zoom then
    let size := if st.orientation = Orientation.vertical then st.widgetHeight
      else st.widgetWidth
    let pos := if st.orientation = Orientation.vertical then st.mouseY
      else st.mouseX
    if pos < 15 then
      if st.inverted then ScrollType.stepForward else ScrollType.stepBackward
    else if pos > size - 15 then
      if st.inverted then ScrollType.stepBackward else ScrollType.stepForward
    else ScrollType.none
  else ScrollType.none

/-- `range_grab_remove` (gtkrange.c): no-op without a grab; otherwise clears
the grab location and (via `update_zoom_state (range, FALSE)`) zoom mode.
The style-class and mouse-location updates are rendering state, not
modelled. -/
def rangeGrabRemove (st : RangeState) : RangeState :=
  if st.grabLocation = Option.none then st
  else { st with grabLocation := Option.none, zoom := false }

/-- `gtk_range_remove_step_timer` (gtkrange.c): cancel and free the repeat
timer. -/
def removeStepTimer (st : RangeState) : RangeState :=
  { st with timer := Option.none }

/-- `remove_autoscroll` (gtkrange.c): remove the tick callback, unset the
captured initial slider position, and reset the autoscroll mode. -/
def removeAutoscroll (st : RangeState) : RangeState :=
  { st with autoscrollId := Option.none,
            slideInitialSliderPosition := -1,
            autoscrollMode := ScrollType.none }

/-- `stop_scrolling` (gtkrange.c): `range_grab_remove`, then
`gtk_range_remove_step_timer`, then `remove_autoscroll`. -/
def stopScrolling (st : RangeState) : RangeState :=
  removeAutoscroll (removeStepTimer (rangeGrabRemove st))

/-- `gtk_range_multipress_gesture_released` (gtkrange.c): record the pointer,
clear the in-drag flag, then `stop_scrolling`. -/
def multipressReleased (st : RangeState) (x y : ℤ) : RangeState :=
  stopScrolling { st with mouseX := x, mouseY := y, inDrag := false }

/-- The Escape branch of `gtk_range_key_press` (gtkrange.c): with the drag
gesture active (on the same device, modelled inside `dragGestureActive`) and
a grab held, `stop_scrolling`; otherwise the key is not consumed here. -/
def keyPressEscape (st : RangeState) : RangeState :=
  if st.dragGestureActive && st.grabLocation.isSome then stopScrolling st
  else st

/-- `gtk_range_unmap` (gtkrange.c): `stop_scrolling`. -/
def rangeUnmap (st : RangeState) : RangeState :=
  stopScrolling st

/-- A drag state with one mark at 5 and the adjustment sitting on it. -/
def snapState : RangeState :=
  { baseState with marks := [5], adjValue := 5 }

/-- A zoomed horizontal drag with the pointer at the near edge on a
flippable, non-inverted, right-to-left range: effective inversion is true
while the raw inverted flag is false. -/
def c8State : RangeState :=
  { baseState with zoom := true, flippable := true, textDir := TextDir.rtl }

/-- A zoomed, inverted horizontal drag with the pointer at the near edge. -/
def c8WitnessState : RangeState :=
  { baseState with zoom := true, inverted := true }

/-- A state in the middle of a zoomed slider drag with an active grab, a
live repeat timer and a live autoscroll callback. -/
def escapeState : RangeState :=
  { baseState with
      inDrag := true
      dragGestureActive := true
      grabLocation := Option.some Loc.slider
      zoom := true
      timer := Option.some ScrollType.pageForward
      autoscrollId := Option.some 1
      autoscrollMode := ScrollType.pageForward }

end GtkRange

namespace GtkRangeSpec

/-- Written from the spec's words (§4.6, as restated by the claim): the
pointer distance is clamped to `[20, 220]` pixels total and normalized into
`[0, 1]`. -/
def specAutoscrollT (dist : ℚ) : ℚ :=
  (min (max dist 20) 220 - 20) / 200

/-- Written from the spec's words (§4.6, as restated by the claim): per-tick
increment magnitude `((1-t) * step_increment + t * page_increment) / 20` with
`t` normalized into `[0, 1]`. -/
def specAutoscrollMagnitude (step page dist : ℚ) : ℚ :=
  ((1 - specAutoscrollT dist) * step + specAutoscrollT dist * page) / 20

end GtkRangeSpec

/-- C2: for a vertical range effective inversion equals the inverted flag,
and for a horizontal range it is exactly the three listed combinations of
inverted, flippable and text direction. -/
theorem C2_should_invert_truth_table :
    ∀ (o : GtkRange.Orientation) (i f : Bool) (d : GtkRange.TextDir),
      GtkRange.shouldInvertCore o i f d = GtkRangeSpec.specShouldInvert o i f d := by
  intro o i f d
  cases o <;> cases i <;> cases f <;> cases d <;> rfl

/-- The C `CLAMP` macro agrees with `max lo (min x hi)` whenever the
interval is non-degenerate. -/
theorem cClamp_eq_max_min (x lo hi : ℚ) (h : lo ≤ hi) :
    GtkRange.cClamp x lo hi = max lo (min x hi) := by
  unfold GtkRange.cClamp
  rcases lt_or_le hi x with hx | hx
  · rw [if_pos hx, min_eq_right hx.le, max_eq_right h]
  · rw [if_neg (not_lt.mpr hx)]
    rcases lt_or_le x lo with hl | hl
    · rw [if_pos hl, min_eq_left hx, max_eq_left hl.le]
    · rw [if_neg (not_lt.mpr hl), min_eq_left hx, max_eq_right hl]

/-- C1: for every scroll type and candidate value, the default change-value
handler commits (passes to the adjustment) exactly the spec's value: fill-level
cap, then clamp into `[lower, upper - page_size]`, then round-half-up to
`round_digits` decimal digits; in particular with `round_digits = 2` an
in-bounds candidate `1.005` commits as `1.01`. -/
theorem C1_change_value_commit :
    (∀ (scroll : GtkRange.ScrollType) (st : GtkRange.RangeState) (v : ℚ),
        st.adjLower ≤ st.adjUpper - st.adjPageSize →
        GtkRange.changeValue st scroll v =
          GtkRange.adjustmentSetValue st (GtkRangeSpec.specCommitValue st v)) ∧
    GtkRange.realChangeValueValue
        { GtkRange.baseState with roundDigits := 2 } (1005/1000) = 101/100 := by
  constructor
  · intro scroll st v h
    have hcl : GtkRange.cClamp
        (if st.restrictToFillLevel then min v (max st.adjLower st.fillLevel) else v)
        st.adjLower (st.adjUpper - st.adjPageSize) =
        max st.adjLower
          (min (if st.restrictToFillLevel then min v (max st.adjLower st.fillLevel) else v)
            (st.adjUpper - st.adjPageSize)) :=
      cClamp_eq_max_min _ _ _ h
    simp only [GtkRange.changeValue, GtkRange.realChangeValueValue,
      GtkRangeSpec.specCommitValue, hcl]
  · norm_num [GtkRange.realChangeValueValue, GtkRange.baseState, GtkRange.cClamp,
      Int.toNat]

/-- C1 witness: the general part of `C1_change_value_commit` applied at a
concrete state with a satisfiable bounds hypothesis. -/
theorem C1_change_value_commit_witness :
    GtkRange.changeValue { GtkRange.baseState with roundDigits := 2 }
        GtkRange.ScrollType.jump (1005/1000) =
      GtkRange.adjustmentSetValue { GtkRange.baseState with roundDigits := 2 }
        (GtkRangeSpec.specCommitValue
          { GtkRange.baseState with roundDigits := 2 } (1005/1000)) :=
  C1_change_value_commit.1 GtkRange.ScrollType.jump
    { GtkRange.baseState with roundDigits := 2 } (1005/1000)
    (by norm_num [GtkRange.baseState])

/-- C10: because rounding happens after clamping, the value the default
change-value handler passes to the adjustment can exceed `upper - page_size`:
with `lower = 0`, `upper - page_size = 0.996`, `round_digits = 2` and
candidate `10`, the handler passes `1 > 0.996`. -/
theorem C10_round_after_clamp_escapes_interval :
    GtkRange.realChangeValueValue
        { GtkRange.baseState with roundDigits := 2, adjUpper := 996/1000 } 10 = 1 ∧
    ({ GtkRange.baseState with roundDigits := 2, adjUpper := 996/1000 } :
        GtkRange.RangeState).adjUpper -
      ({ GtkRange.baseState with roundDigits := 2, adjUpper := 996/1000 } :
        GtkRange.RangeState).adjPageSize <
      GtkRange.realChangeValueValue
        { GtkRange.baseState with roundDigits := 2, adjUpper := 996/1000 } 10 := by
  constructor <;>
    norm_num [GtkRange.realChangeValueValue, GtkRange.baseState, GtkRange.cClamp,
      Int.toNat]

/-- C3: `coord_to_value` equals the spec's unclamped affine formula; under the
degenerate adjustment `lower = upper = 0` (with `page_size = 0`) it returns
`lower` for every coordinate; and it does not clamp the result to
`[lower, upper]` (a coordinate past the trough maps above `upper`). -/
theorem C3_coord_to_value :
    (∀ (st : GtkRange.RangeState) (coord : ℚ),
        GtkRange.coordToValue st coord = GtkRangeSpec.specCoordToValue st coord) ∧
    (∀ (st : GtkRange.RangeState) (coord : ℚ),
        GtkRange.coordToValue
          { st with adjLower := 0, adjUpper := 0, adjPageSize := 0 } coord = 0) ∧
    GtkRange.baseState.adjUpper < GtkRange.coordToValue GtkRange.baseState 200 := by
  refine ⟨fun st coord => rfl, fun st coord => ?_, ?_⟩
  · simp [GtkRange.coordToValue]
  · norm_num [GtkRange.coordToValue, GtkRange.baseState,
      GtkRange.RangeState.shouldInvert, GtkRange.shouldInvertCore]

/-- C4: for the discrete step/page scroll actions, whenever some mark lies
strictly between the old value and the computed new value (in either
direction), the value emitted to the change-value funnel by `apply_marks` is a
mark strictly between them instead of the overshooting value; with marks `[5]`,
old value `3` and step increment `4`, `step_forward` emits exactly `5`. -/
theorem C4_mark_passthrough :
    (∀ (marks : List ℚ) (old nv : ℚ),
        (∃ m ∈ marks, (old < m ∧ m < nv) ∨ (old > m ∧ m > nv)) →
        GtkRange.applyMarks marks old nv ∈ marks ∧
          ((old < GtkRange.applyMarks marks old nv ∧
              GtkRange.applyMarks marks old nv < nv) ∨
           (old > GtkRange.applyMarks marks old nv ∧
              GtkRange.applyMarks marks old nv > nv))) ∧
    GtkRange.stepForwardNewval
      { GtkRange.baseState with
          marks := [5], adjValue := 3, adjStepIncrement := 4 } = 5 := by
  constructor
  · intro marks old nv
    induction marks with
    | nil => rintro ⟨m, hm, _⟩; simp at hm
    | cons a rest ih =>
      intro h
      by_cases hc : (old < a ∧ a < nv) ∨ (old > a ∧ a > nv)
      · rw [GtkRange.applyMarks, if_pos hc]
        exact ⟨List.mem_cons_self a rest, hc⟩
      · rw [GtkRange.applyMarks, if_neg hc]
        obtain ⟨m, hm, hmb⟩ := h
        rcases List.mem_cons.mp hm with rfl | hm
        · exact absurd hmb hc
        · obtain ⟨h1, h2⟩ := ih ⟨m, hm, hmb⟩
          exact ⟨List.mem_cons_of_mem a h1, h2⟩
  · norm_num [GtkRange.stepForwardNewval, GtkRange.applyMarks, GtkRange.baseState]

/-- C4 witness: the general part of `C4_mark_passthrough` at marks `[5]`,
old value `3`, new value `7`. -/
theorem C4_mark_passthrough_witness :
    GtkRange.applyMarks [5] 3 7 ∈ ([5] : List ℚ) ∧
      ((3 < GtkRange.applyMarks [5] 3 7 ∧ GtkRange.applyMarks [5] 3 7 < 7) ∨
       (3 > GtkRange.applyMarks [5] 3 7 ∧ GtkRange.applyMarks [5] 3 7 > 7)) :=
  C4_mark_passthrough.1 [5] 3 7
    ⟨5, by simp, Or.inl ⟨by norm_num, by norm_num⟩⟩

/-- C7: for every keyboard move-slider scroll action, the error bell fires if
and only if executing the scroll action leaves the adjustment's stored value
unchanged. -/
theorem C7_move_slider_error_bell :
    ∀ (st : GtkRange.RangeState) (scroll : GtkRange.ScrollType),
      (GtkRange.moveSlider st scroll).2 = true ↔
        (GtkRange.moveSlider st scroll).1.adjValue = st.adjValue := by
  intro st scroll
  simp [GtkRange.moveSlider, GtkRange.gtkRangeScroll]

/-- The mark loop of `update_slider_position`: the result is a qualifying mark
when one exists and the unchanged candidate when none does. -/
theorem snapLoop_cases (marks : List ℚ) (a d v : ℚ) :
    ((∃ m ∈ marks, |a - m| < 3 * d ∧ |v - m| < 12 * d) →
      GtkRange.snapLoop marks a d v ∈ marks ∧
        |a - GtkRange.snapLoop marks a d v| < 3 * d ∧
        |v - GtkRange.snapLoop marks a d v| < 12 * d) ∧
    ((∀ m ∈ marks, ¬(|a - m| < 3 * d ∧ |v - m| < 12 * d)) →
      GtkRange.snapLoop marks a d v = v) := by
  induction marks with
  | nil =>
    refine ⟨?_, fun _ => rfl⟩
    rintro ⟨m, hm, _⟩
    simp at hm
  | cons x rest ih =>
    constructor
    · rintro ⟨m, hm, h1, h2⟩
      by_cases hx1 : |a - x| < 3 * d
      · by_cases hx2 : |v - x| < 12 * d
        · simp only [GtkRange.snapLoop, if_pos hx1, if_pos hx2]
          exact ⟨List.mem_cons_self x rest, hx1, hx2⟩
        · simp only [GtkRange.snapLoop, if_pos hx1, if_neg hx2]
          rcases List.mem_cons.mp hm with rfl | hm2
          · exact absurd h2 hx2
          · obtain ⟨r1, r2⟩ := ih.1 ⟨m, hm2, h1, h2⟩
            exact ⟨List.mem_cons_of_mem x r1, r2⟩
      · simp only [GtkRange.snapLoop, if_neg hx1]
        rcases List.mem_cons.mp hm with rfl | hm2
        · exact absurd h1 hx1
        · obtain ⟨r1, r2⟩ := ih.1 ⟨m, hm2, h1, h2⟩
          exact ⟨List.mem_cons_of_mem x r1, r2⟩
    · intro hall
      have hx := hall x (List.mem_cons_self x rest)
      by_cases hx1 : |a - x| < 3 * d
      · have hx2 : ¬ |v - x| < 12 * d := fun h => hx ⟨hx1, h⟩
        simp only [GtkRange.snapLoop, if_pos hx1, if_neg hx2]
        exact ih.2 fun m hm => hall m (List.mem_cons_of_mem x hm)
      · simp only [GtkRange.snapLoop, if_neg hx1]
        exact ih.2 fun m hm => hall m (List.mem_cons_of_mem x hm)

/-- C5: during a slider drag update at synthetic coordinate `c`, with
`mark_delta = |coord_to_value(c+1) - coord_to_value(c)|`, the emitted value is
a mark `m` with `|value - m| < 3 * mark_delta` and
`|candidate - m| < 12 * mark_delta` exactly when such a mark exists, and the
unchanged candidate `coord_to_value(c)` otherwise, in both cases with scroll
reason jump. -/
theorem C5_drag_mark_snap :
    ∀ (st : GtkRange.RangeState) (c : ℚ),
      (GtkRange.updateSliderEmit st c).1 = GtkRange.ScrollType.jump ∧
      ((∃ m ∈ st.marks,
          |st.adjValue - m| <
            3 * |GtkRange.coordToValue st (c + 1) - GtkRange.coordToValue st c| ∧
          |GtkRange.coordToValue st c - m| <
            12 * |GtkRange.coordToValue st (c + 1) - GtkRange.coordToValue st c|) →
        (GtkRange.updateSliderEmit st c).2 ∈ st.marks ∧
          |st.adjValue - (GtkRange.updateSliderEmit st c).2| <
            3 * |GtkRange.coordToValue st (c + 1) - GtkRange.coordToValue st c| ∧
          |GtkRange.coordToValue st c - (GtkRange.updateSliderEmit st c).2| <
            12 * |GtkRange.coordToValue st (c + 1) - GtkRange.coordToValue st c|) ∧
      ((∀ m ∈ st.marks,
          ¬(|st.adjValue - m| <
              3 * |GtkRange.coordToValue st (c + 1) - GtkRange.coordToValue st c| ∧
            |GtkRange.coordToValue st c - m| <
              12 * |GtkRange.coordToValue st (c + 1) - GtkRange.coordToValue st c|)) →
        (GtkRange.updateSliderEmit st c).2 = GtkRange.coordToValue st c) := by
  intro st c
  have h := snapLoop_cases st.marks st.adjValue
    (|GtkRange.coordToValue st (c + 1) - GtkRange.coordToValue st c|)
    (GtkRange.coordToValue st c)
  exact ⟨rfl, h.1, h.2⟩

/-- C5 witness: with one mark at 5, the adjustment on the mark and a drag
candidate of 4.9 one mark-delta away, the emitted value snaps to the mark. -/
theorem C5_drag_mark_snap_witness :
    (GtkRange.updateSliderEmit GtkRange.snapState 49).2 ∈ GtkRange.snapState.marks ∧
      |GtkRange.snapState.adjValue - (GtkRange.updateSliderEmit GtkRange.snapState 49).2| <
        3 * |GtkRange.coordToValue GtkRange.snapState (49 + 1) -
          GtkRange.coordToValue GtkRange.snapState 49| ∧
      |GtkRange.coordToValue GtkRange.snapState 49 -
          (GtkRange.updateSliderEmit GtkRange.snapState 49).2| <
        12 * |GtkRange.coordToValue GtkRange.snapState (49 + 1) -
          GtkRange.coordToValue GtkRange.snapState 49| :=
  (C5_drag_mark_snap GtkRange.snapState 49).2.1
    ⟨5, by simp [GtkRange.snapState, GtkRange.baseState],
      by norm_num [GtkRange.coordToValue, GtkRange.snapState, GtkRange.baseState,
        GtkRange.RangeState.shouldInvert, GtkRange.shouldInvertCore],
      by norm_num [GtkRange.coordToValue, GtkRange.snapState, GtkRange.baseState,
        GtkRange.RangeState.shouldInvert, GtkRange.shouldInvertCore]⟩

/-- C6 counterexample: at off-axis distance 220 with step 0 and page 20, the
code's per-tick increment magnitude is 2 while the claim's
clamp-to-[20,220]-normalize-to-[0,1] formula gives 1: the code divides the
clamped overshoot by 100, reaching t = 2 and saturating only 200 pixels past
the threshold. -/
theorem C6_autoscroll_speed_cex :
    |GtkRange.autoscrollIncrement GtkRange.ScrollType.scrollEnd 0 20 220| = 2 ∧
    GtkRangeSpec.specAutoscrollMagnitude 0 20 220 = 1 ∧
    |GtkRange.autoscrollIncrement GtkRange.ScrollType.scrollEnd 0 20 220| ≠
      GtkRangeSpec.specAutoscrollMagnitude 0 20 220 := by
  refine ⟨?_, ?_, ?_⟩ <;>
    norm_num [GtkRange.autoscrollIncrement, GtkRange.autoscrollStepAtDistance,
      GtkRange.cClamp, GtkRangeSpec.specAutoscrollMagnitude,
      GtkRangeSpec.specAutoscrollT]

/-- C6 amended: in start/end autoscroll mode the per-tick increment is
`±((1-t) * step_increment + t * page_increment) / 20` with
`t = clamp(distance - 20, 0, 200) / 100 ∈ [0, 2]`, so the speed saturates once
the pointer is 200 pixels past the 20-pixel threshold, at magnitude
`(2 * page_increment - step_increment) / 20`. -/
theorem C6_autoscroll_speed :
    (∀ step page dist : ℚ,
        GtkRange.autoscrollIncrement GtkRange.ScrollType.scrollEnd step page dist =
          ((1 - GtkRange.cClamp (dist - 20) 0 200 / 100) * step +
            GtkRange.cClamp (dist - 20) 0 200 / 100 * page) / 20 ∧
        GtkRange.autoscrollIncrement GtkRange.ScrollType.scrollStart step page dist =
          -(((1 - GtkRange.cClamp (dist - 20) 0 200 / 100) * step +
            GtkRange.cClamp (dist - 20) 0 200 / 100 * page) / 20)) ∧
    (∀ step page dist : ℚ, 220 ≤ dist →
        GtkRange.autoscrollIncrement GtkRange.ScrollType.scrollEnd step page dist =
          (2 * page - step) / 20) := by
  constructor
  · intro step page dist
    constructor
    · simp [GtkRange.autoscrollIncrement, GtkRange.autoscrollStepAtDistance]
    · simp only [GtkRange.autoscrollIncrement, GtkRange.autoscrollStepAtDistance]
      ring
  · intro step page dist h
    have hd : GtkRange.cClamp (dist - 20) 0 200 = 200 := by
      unfold GtkRange.cClamp
      rcases lt_or_eq_of_le (by linarith : (200 : ℚ) ≤ dist - 20) with hlt | heq
      · rw [if_pos hlt]
      · rw [if_neg (by linarith), if_neg (by linarith)]
        linarith
    simp only [GtkRange.autoscrollIncrement, GtkRange.autoscrollStepAtDistance, hd]
    ring

/-- C6 witness: the saturation part of `C6_autoscroll_speed` at distance 300
with step 1 and page 2. -/
theorem C6_autoscroll_speed_witness :
    GtkRange.autoscrollIncrement GtkRange.ScrollType.scrollEnd 1 2 300 =
      (2 * 2 - 1) / 20 :=
  C6_autoscroll_speed.2 1 2 300 (by norm_num)

/-- C8 counterexample: on a zoomed horizontal flippable RTL non-inverted range
with the pointer at the near edge, effective inversion is true, so the claim
predicts step-forward, but `update_autoscroll_mode` consults only the raw
inverted flag and picks step-backward. -/
theorem C8_autoscroll_direction_cex :
    GtkRange.c8State.shouldInvert = true ∧
    GtkRange.c8State.mouseX < 15 ∧
    GtkRange.updateAutoscrollModeValue GtkRange.c8State =
      GtkRange.ScrollType.stepBackward ∧
    GtkRange.updateAutoscrollModeValue GtkRange.c8State ≠
      (if GtkRange.c8State.shouldInvert then GtkRange.ScrollType.stepForward
       else GtkRange.ScrollType.stepBackward) := by
  refine ⟨rfl, by decide, rfl, by decide⟩

/-- C8 amended: in zoom mode the autoscroll step direction at the near edge
(position < 15 along the primary axis) and the far edge is chosen by the raw
`inverted` flag, not by the effective inversion: near edge maps to
step-backward and far edge to step-forward when `inverted` is false, and the
reverse when it is true. -/
theorem C8_autoscroll_direction :
    ∀ st : GtkRange.RangeState, st.zoom = true →
      ((if st.orientation = GtkRange.Orientation.vertical then st.mouseY
          else st.mouseX) < 15 →
        GtkRange.updateAutoscrollModeValue st =
          (if st.inverted then GtkRange.ScrollType.stepForward
           else GtkRange.ScrollType.stepBackward)) ∧
      (¬ (if st.orientation = GtkRange.Orientation.vertical then st.mouseY
          else st.mouseX) < 15 →
        (if st.orientation = GtkRange.Orientation.vertical then st.mouseY
          else st.mouseX) >
          (if st.orientation = GtkRange.Orientation.vertical then st.widgetHeight
            else st.widgetWidth) - 15 →
        GtkRange.updateAutoscrollModeValue st =
          (if st.inverted then GtkRange.ScrollType.stepBackward
           else GtkRange.ScrollType.stepForward)) := by
  intro st hz
  constructor
  · intro hpos
    simp [GtkRange.updateAutoscrollModeValue, hz, hpos]
  · intro hpos hfar
    simp [GtkRange.updateAutoscrollModeValue, hz, hpos, hfar]

/-- C8 witness: the near-edge part of `C8_autoscroll_direction` on a zoomed
inverted horizontal range with the pointer at coordinate 0. -/
theorem C8_autoscroll_direction_witness :
    GtkRange.updateAutoscrollModeValue GtkRange.c8WitnessState =
      (if GtkRange.c8WitnessState.inverted then GtkRange.ScrollType.stepForward
       else GtkRange.ScrollType.stepBackward) :=
  (C8_autoscroll_direction GtkRange.c8WitnessState rfl).1 (by decide)

/-- C9 counterexample: Escape during an active zoomed slider drag (grab held,
drag gesture active, in-drag set) runs `stop_scrolling`, which clears the
grab, timer, autoscroll and zoom but leaves the in-drag flag set, contrary to
the claim that every grab-ending event clears it. -/
theorem C9_escape_keeps_in_drag_cex :
    GtkRange.escapeState.grabLocation ≠ Option.none ∧
    GtkRange.escapeState.dragGestureActive = true ∧
    GtkRange.escapeState.inDrag = true ∧
    ¬ (GtkRange.keyPressEscape GtkRange.escapeState).inDrag = false := by
  refine ⟨by decide, rfl, rfl, by decide⟩

/-- C9 amended: with a grab held, a button release clears the grab, removes
the repeat timer, removes the autoscroll callback with mode none, clears zoom
and clears the in-drag flag; Escape during an active drag gesture and unmap
clear all of these except the in-drag flag, which they leave unchanged. -/
theorem C9_grab_end_reset :
    ∀ (st : GtkRange.RangeState) (x y : ℤ), st.grabLocation ≠ Option.none →
      ((GtkRange.multipressReleased st x y).grabLocation = Option.none ∧
       (GtkRange.multipressReleased st x y).timer = Option.none ∧
       (GtkRange.multipressReleased st x y).autoscrollId = Option.none ∧
       (GtkRange.multipressReleased st x y).autoscrollMode = GtkRange.ScrollType.none ∧
       (GtkRange.multipressReleased st x y).zoom = false ∧
       (GtkRange.multipressReleased st x y).inDrag = false) ∧
      (st.dragGestureActive = true →
       (GtkRange.keyPressEscape st).grabLocation = Option.none ∧
       (GtkRange.keyPressEscape st).timer = Option.none ∧
       (GtkRange.keyPressEscape st).autoscrollId = Option.none ∧
       (GtkRange.keyPressEscape st).autoscrollMode = GtkRange.ScrollType.none ∧
       (GtkRange.keyPressEscape st).zoom = false ∧
       (GtkRange.keyPressEscape st).inDrag = st.inDrag) ∧
      ((GtkRange.rangeUnmap st).grabLocation = Option.none ∧
       (GtkRange.rangeUnmap st).timer = Option.none ∧
       (GtkRange.rangeUnmap st).autoscrollId = Option.none ∧
       (GtkRange.rangeUnmap st).autoscrollMode = GtkRange.ScrollType.none ∧
       (GtkRange.rangeUnmap st).zoom = false ∧
       (GtkRange.rangeUnmap st).inDrag = st.inDrag) := by
  intro st x y hg
  have hsome : st.grabLocation.isSome = true := Option.isSome_iff_ne_none.mpr hg
  refine ⟨?_, fun hdga => ?_, ?_⟩
  · simp [GtkRange.multipressReleased, GtkRange.stopScrolling,
      GtkRange.removeAutoscroll, GtkRange.removeStepTimer,
      GtkRange.rangeGrabRemove, hg]
  · simp [GtkRange.keyPressEscape, hdga, hsome, GtkRange.stopScrolling,
      GtkRange.removeAutoscroll, GtkRange.removeStepTimer,
      GtkRange.rangeGrabRemove, hg]
  · simp [GtkRange.rangeUnmap, GtkRange.stopScrolling,
      GtkRange.removeAutoscroll, GtkRange.removeStepTimer,
      GtkRange.rangeGrabRemove, hg]

/-- C9 witness: `C9_grab_end_reset` at the concrete mid-drag state. -/
theorem C9_grab_end_reset_witness :
    (GtkRange.multipressReleased GtkRange.escapeState 0 0).inDrag = false ∧
    (GtkRange.keyPressEscape GtkRange.escapeState).inDrag =
      GtkRange.escapeState.inDrag ∧
    (GtkRange.rangeUnmap GtkRange.escapeState).grabLocation = Option.none :=
  ⟨(C9_grab_end_reset GtkRange.escapeState 0 0 (by decide)).1.2.2.2.2.2,
   ((C9_grab_end_reset GtkRange.escapeState 0 0 (by decide)).2.1 rfl).2.2.2.2.2,
   (C9_grab_end_reset GtkRange.escapeState 0 0 (by decide)).2.2.1⟩
